import Mathlib

/-!
Verification of the passive signal aggregation engine of the Redakta quick-check
service. The definitions below are a shallow embedding of the TypeScript route
implementing the engine: DNS and HTTP effects are passed in as explicit
environments (a resolver function, promise outcomes, budget states), module-level
mutable stores (rate-limit store, upstream budget store, threat-intel cache,
KEV cache) are threaded as explicit state, and `Date.now()` is an explicit
`now : Nat` parameter. Machine integers are modelled as `Nat` with explicit
`% 2^32` where the source relies on 32-bit wrap-around.
-/

/-- The four public signal bands of the engine. -/
inductive PublicBand where
  | green
  | amber
  | red
  | gray
deriving DecidableEq, Repr

/-- The public severity values attached to a signal. -/
inductive Severity where
  | success
  | warning
  | error
  | neutral
deriving DecidableEq, Repr

/-- Confidence grades of a public signal. -/
inductive Confidence where
  | high
  | medium
  | low
deriving DecidableEq, Repr

/-- A public signal: band, derived severity, human teaser and confidence. -/
structure PublicSignal where
  verdict : PublicBand
  severity : Severity
  teaser : String
  confidence : Confidence
deriving DecidableEq, Repr

/-- `severityFromBand` from the source: green maps to success, amber to warning,
red to error, gray to neutral. -/
def severityFromBand (band : PublicBand) : Severity :=
  if band = PublicBand.green then Severity.success
  else if band = PublicBand.amber then Severity.warning
  else if band = PublicBand.red then Severity.error
  else Severity.neutral

/-- `makeSignal` from the source: builds a `PublicSignal` with severity derived
from the band. -/
def makeSignal (verdict : PublicBand) (teaser : String) (confidence : Confidence) : PublicSignal :=
  { verdict := verdict
    severity := severityFromBand verdict
    teaser := teaser
    confidence := confidence }

/-- `bandScore` from the source: red weighs 2, amber 1, green and gray 0. -/
def bandScore (band : PublicBand) : Nat :=
  if band = PublicBand.red then 2
  else if band = PublicBand.amber then 1
  else 0

/-- Overall verdicts of the aggregator. -/
inductive OverallVerdict where
  | secure
  | attention
  | risk
deriving DecidableEq, Repr

/-- Pressure bands of the aggregator. -/
inductive PressureBand where
  | low
  | medium
  | high
deriving DecidableEq, Repr

/-- `overallFromSignals` from the source: sums the band scores of all signals
and applies the fixed thresholds 7 and 3. -/
def overallFromSignals (signals : List PublicSignal) : OverallVerdict × PressureBand :=
  let total := signals.foldl (fun sum s => sum + bandScore s.verdict) 0
  if 7 ≤ total then (OverallVerdict.risk, PressureBand.high)
  else if 3 ≤ total then (OverallVerdict.attention, PressureBand.medium)
  else (OverallVerdict.secure, PressureBand.low)

/-- Claim C7: the verdict aggregator sums fixed per-band weights (gray = 0,
green = 0, amber = 1, red = 2) and yields risk/high exactly when the total is
at least 7, attention/medium exactly when it is at least 3 and below 7, and
secure/low otherwise; one red plus three amber signals (total 5) yields
attention, and nine green signals yield secure. -/
theorem verdict_aggregator_spec (signals : List PublicSignal) :
    ((overallFromSignals signals = (OverallVerdict.risk, PressureBand.high)
        ↔ 7 ≤ signals.foldl (fun sum s => sum + bandScore s.verdict) 0)
      ∧ (overallFromSignals signals = (OverallVerdict.attention, PressureBand.medium)
        ↔ 3 ≤ signals.foldl (fun sum s => sum + bandScore s.verdict) 0
            ∧ signals.foldl (fun sum s => sum + bandScore s.verdict) 0 < 7)
      ∧ (overallFromSignals signals = (OverallVerdict.secure, PressureBand.low)
        ↔ signals.foldl (fun sum s => sum + bandScore s.verdict) 0 < 3))
    ∧ bandScore PublicBand.gray = 0 ∧ bandScore PublicBand.green = 0
    ∧ bandScore PublicBand.amber = 1 ∧ bandScore PublicBand.red = 2
    ∧ overallFromSignals
        [makeSignal PublicBand.red ("t") Confidence.high,
          makeSignal PublicBand.amber ("t") Confidence.medium,
          makeSignal PublicBand.amber ("t") Confidence.medium,
          makeSignal PublicBand.amber ("t") Confidence.medium]
        = (OverallVerdict.attention, PressureBand.medium)
    ∧ overallFromSignals (List.replicate 9 (makeSignal PublicBand.green ("t") Confidence.medium))
        = (OverallVerdict.secure, PressureBand.low) := by
  refine ⟨?_, by decide, by decide, by decide, by decide, by decide, by decide⟩
  simp only [overallFromSignals]
  split_ifs with h1 h2
  · exact ⟨by simp [h1], by simp; omega, by simp; omega⟩
  · exact ⟨by simp; omega, by simp; omega, by simp; omega⟩
  · exact ⟨by simp; omega, by simp; omega, by simp; omega⟩

/-! ### In-memory stores

JS `Map`s keyed by strings are modelled as association lists with unique keys.
`alookup` models `Map.get`, `mapSet` models `Map.set` (replace-or-append,
preserving insertion order as the JS `Map` does). -/

/-- `Map.get` on an association list keyed by strings. -/
def alookup {β : Type} : List (String × β) → String → Option β
  | [], _ => none
  | (k, v) :: rest, key => if k = key then some v else alookup rest key

/-- `Map.set` on an association list keyed by strings: replaces an existing
binding in place, otherwise appends. -/
def mapSet {β : Type} (l : List (String × β)) (key : String) (v : β) : List (String × β) :=
  if (alookup l key).isSome then
    l.map (fun kv => if kv.1 = key then (key, v) else kv)
  else l ++ [(key, v)]

theorem alookup_append_of_none {β : Type} (l m : List (String × β)) (key : String)
    (h : alookup l key = none) : alookup (l ++ m) key = alookup m key := by
  induction l with
  | nil => rfl
  | cons kv rest ih =>
    obtain ⟨k, v⟩ := kv
    simp only [alookup] at h
    by_cases hk : k = key
    · simp [hk] at h
    · simp only [if_neg hk] at h
      simp only [List.cons_append, alookup, if_neg hk]
      exact ih h

theorem alookup_map_replace {β : Type} (l : List (String × β)) (key : String) (v : β)
    (h : (alookup l key).isSome) :
    alookup (l.map (fun kv => if kv.1 = key then (key, v) else kv)) key = some v := by
  induction l with
  | nil => simp [alookup] at h
  | cons kv rest ih =>
    obtain ⟨k, w⟩ := kv
    simp only [List.map_cons]
    by_cases hk : k = key
    · have h1 : ((if (k, w).1 = key then (key, v) else (k, w)) : String × β) = (key, v) := by
        simp [hk]
      rw [h1]
      simp [alookup]
    · have h1 : ((if (k, w).1 = key then (key, v) else (k, w)) : String × β) = (k, w) := by
        simp [hk]
      rw [h1]
      simp only [alookup, hk, if_false] at h
      simp only [alookup, hk, if_false]
      exact ih h

theorem alookup_mapSet {β : Type} (l : List (String × β)) (key : String) (v : β) :
    alookup (mapSet l key v) key = some v := by
  unfold mapSet
  split
  · exact alookup_map_replace l key v (by assumption)
  · rename_i hn
    have h : alookup l key = none := by
      cases hl : alookup l key with
      | none => rfl
      | some w => rw [hl] at hn; simp at hn
    rw [alookup_append_of_none l _ key h]
    simp [alookup]

/-! ### Rate limiting and upstream budgets -/

/-- An entry of the rate-limit or upstream-budget store: request count and
window expiry timestamp. -/
structure RateEntry where
  count : Nat
  resetAt : Nat
deriving DecidableEq, Repr

/-- `RATE_LIMIT_WINDOW_MS` from the source (one minute). -/
def RATE_LIMIT_WINDOW_MS : Nat := 60 * 1000

/-- `RATE_LIMIT_MAX_REQUESTS` from the source (10 per minute per IP). -/
def RATE_LIMIT_MAX_REQUESTS : Nat := 10

/-- `UPSTREAM_RATE_WINDOW_MS` from the source (one minute). -/
def UPSTREAM_RATE_WINDOW_MS : Nat := 60 * 1000

/-- `UPSTREAM_RATE_MAX_REQUESTS` from the source, as a function of the
upstream source key. -/
def UPSTREAM_RATE_MAX_REQUESTS (source : String) : Nat :=
  if source = ("urlhaus") then 20
  else if source = ("threatfox") then 20
  else if source = ("shodan") then 30
  else if source = ("abuseipdb") then 20
  else 5

/-- The result record of `checkRateLimit`. -/
structure RateLimitDecision where
  allowed : Bool
  remaining : Nat
  resetIn : Nat
deriving DecidableEq, Repr

/-- `checkRateLimit` from the source. The module-level `rateLimitStore` is
threaded explicitly; `Date.now()` is the explicit `now`. Returns the decision
together with the updated store. -/
def checkRateLimit (store : List (String × RateEntry)) (ip : String) (now : Nat) :
    RateLimitDecision × List (String × RateEntry) :=
  let entry := alookup store ip
  let store1 :=
    if 1000 < store.length then store.filter (fun kv => ! decide (kv.2.resetAt < now))
    else store
  match entry with
  | none =>
    (⟨true, RATE_LIMIT_MAX_REQUESTS - 1, RATE_LIMIT_WINDOW_MS⟩,
      mapSet store1 ip ⟨1, now + RATE_LIMIT_WINDOW_MS⟩)
  | some e =>
    if e.resetAt < now then
      (⟨true, RATE_LIMIT_MAX_REQUESTS - 1, RATE_LIMIT_WINDOW_MS⟩,
        mapSet store1 ip ⟨1, now + RATE_LIMIT_WINDOW_MS⟩)
    else if RATE_LIMIT_MAX_REQUESTS ≤ e.count then
      (⟨false, 0, e.resetAt - now⟩, store1)
    else
      (⟨true, RATE_LIMIT_MAX_REQUESTS - (e.count + 1), e.resetAt - now⟩,
        mapSet store1 ip ⟨e.count + 1, e.resetAt⟩)

/-- `consumeUpstreamBudget` from the source, for a single source key: given the
current budget entry for that key, returns whether the call is admitted and the
updated entry. -/
def consumeUpstreamBudget (entry : Option RateEntry) (limit : Nat) (now : Nat) :
    Bool × RateEntry :=
  match entry with
  | none => (true, ⟨1, now + UPSTREAM_RATE_WINDOW_MS⟩)
  | some c =>
    if c.resetAt < now then (true, ⟨1, now + UPSTREAM_RATE_WINDOW_MS⟩)
    else if limit ≤ c.count then (false, c)
    else (true, ⟨c.count + 1, c.resetAt⟩)

/-- Claim C8 (amended): for every caller key, the first request of a new window
(no entry, or an entry whose window has expired) is admitted with the stored
count reset to 1; requests are admitted while the in-window count is below
`RATE_LIMIT_MAX_REQUESTS`; once the count has reached the maximum inside the
window the request is refused with `allowed = false` and
`resetIn = resetAt - now`, which is strictly positive whenever `now < resetAt`
and zero exactly at the boundary instant `now = resetAt`. -/
theorem rateLimit_window_behavior (store : List (String × RateEntry)) (ip : String) (now : Nat) :
    (alookup store ip = none →
      (checkRateLimit store ip now).1
          = ⟨true, RATE_LIMIT_MAX_REQUESTS - 1, RATE_LIMIT_WINDOW_MS⟩
        ∧ alookup (checkRateLimit store ip now).2 ip = some ⟨1, now + RATE_LIMIT_WINDOW_MS⟩)
    ∧ (∀ e : RateEntry, alookup store ip = some e →
        (e.resetAt < now →
          (checkRateLimit store ip now).1
              = ⟨true, RATE_LIMIT_MAX_REQUESTS - 1, RATE_LIMIT_WINDOW_MS⟩
            ∧ alookup (checkRateLimit store ip now).2 ip = some ⟨1, now + RATE_LIMIT_WINDOW_MS⟩)
        ∧ (¬ e.resetAt < now → e.count < RATE_LIMIT_MAX_REQUESTS →
            (checkRateLimit store ip now).1.allowed = true)
        ∧ (¬ e.resetAt < now → RATE_LIMIT_MAX_REQUESTS ≤ e.count →
            (checkRateLimit store ip now).1 = ⟨false, 0, e.resetAt - now⟩
              ∧ (now < e.resetAt → 0 < e.resetAt - now))) := by
  constructor
  · intro h
    constructor
    · simp [checkRateLimit, h]
    · simp only [checkRateLimit, h]
      exact alookup_mapSet _ ip _
  · intro e he
    refine ⟨?_, ?_, ?_⟩
    · intro hexp
      constructor
      · simp [checkRateLimit, he, if_pos hexp]
      · simp only [checkRateLimit, he, if_pos hexp]
        exact alookup_mapSet _ ip _
    · intro hlive hcnt
      simp [checkRateLimit, he, if_neg hlive,
        if_neg (by omega : ¬ RATE_LIMIT_MAX_REQUESTS ≤ e.count)]
    · intro hlive hmax
      constructor
      · simp [checkRateLimit, he, if_neg hlive, if_pos hmax]
      · intro hlt
        omega

/-- Claim C8 counterexample: at the boundary instant `now = resetAt` the
window has not yet expired (`resetAt < now` is false), the request is refused,
yet `resetIn` is 0, not strictly positive as the claim requires. -/
theorem rateLimit_boundary_resetIn_zero :
    (checkRateLimit [(("203.0.113.5"), ⟨10, 1000⟩)] ("203.0.113.5") 1000).1.allowed = false
    ∧ (checkRateLimit [(("203.0.113.5"), ⟨10, 1000⟩)] ("203.0.113.5") 1000).1.resetIn = 0
    ∧ ¬ ((1000 : Nat) < 1000) := by
  decide

/-- Witness for `rateLimit_window_behavior`: a concrete refused request inside
the window, with strictly positive `resetIn`. -/
theorem rateLimit_window_behavior_witness :
    (checkRateLimit [(("198.51.100.7"), ⟨10, 500⟩)] ("198.51.100.7") 100).1
        = ⟨false, 0, 400⟩
    ∧ (0 : Nat) < 400 := by
  have h := (rateLimit_window_behavior [(("198.51.100.7"), ⟨10, 500⟩)] ("198.51.100.7") 100).2
      ⟨10, 500⟩ (by decide)
  have h2 := h.2.2 (by decide) (by decide)
  exact ⟨h2.1, h2.2 (by decide)⟩

/-! ### Upstream clients

Each upstream HTTP call is modelled by an explicit outcome value: `none` /
`failure` stands for the catch path (network error, timeout, non-2xx status,
parse failure), a payload value for a successfully parsed 2xx response.
The budget decision of `consumeUpstreamBudget` is passed in as a boolean. -/

/-- Result of the malicious-URL feed client (`checkUrlhaus`). -/
structure UrlhausResult where
  available : Bool
  hits : Nat
deriving DecidableEq, Repr

/-- Result of the malware-IOC feed client (`checkThreatFox`). -/
structure ThreatFoxResult where
  available : Bool
  hits : Nat
deriving DecidableEq, Repr

/-- Result of the open-ports/vulns feed client (`checkShodanInternetDb`). -/
structure ShodanResult where
  available : Bool
  portCount : Nat
  vulnCount : Nat
  vulns : List String
deriving DecidableEq, Repr

/-- Result of the IP-reputation client (`checkAbuseIpdb`). -/
structure AbuseIpdbResult where
  available : Bool
  abuseScore : Option Int
deriving DecidableEq, Repr

/-- Parsed JSON body of the abuse.ch style feeds: optional `query_status`
string and the length of the result array when it is an array. -/
structure AbuseChPayload where
  queryStatus : Option String
  items : Option Nat
deriving DecidableEq, Repr

/-- JS truthiness of an optional string (`undefined` and the empty string are
falsy). -/
def jsTruthyStr (s : Option String) : Bool :=
  match s with
  | none => false
  | some v => v ≠ ("")

/-- `checkUrlhaus` from the source, with the budget decision and the HTTP
outcome passed explicitly. A refused budget or a failed call yields the
unavailable outcome. -/
def checkUrlhaus (budgetAllowed : Bool) (http : Option AbuseChPayload) : UrlhausResult :=
  if budgetAllowed = false then ⟨false, 0⟩
  else
    match http with
    | none => ⟨false, 0⟩
    | some p =>
      if jsTruthyStr p.queryStatus && p.queryStatus ≠ some ("ok") then ⟨true, 0⟩
      else ⟨true, p.items.getD 0⟩

/-- `checkThreatFox` from the source, same shape as `checkUrlhaus`. -/
def checkThreatFox (budgetAllowed : Bool) (http : Option AbuseChPayload) : ThreatFoxResult :=
  if budgetAllowed = false then ⟨false, 0⟩
  else
    match http with
    | none => ⟨false, 0⟩
    | some p =>
      if jsTruthyStr p.queryStatus && p.queryStatus ≠ some ("ok") then ⟨true, 0⟩
      else ⟨true, p.items.getD 0⟩

/-- HTTP outcome of the internetdb lookup: failure, a 404 (host unknown,
treated as a successful empty answer), or a parsed body with ports and CVE
identifiers. -/
inductive ShodanHttp where
  | failure
  | notFound
  | body (ports : Nat) (vulns : List String)
deriving DecidableEq, Repr

/-- `checkShodanInternetDb` from the source: no IP or refused budget or failed
call yields unavailable; a 404 yields an available empty result. -/
def checkShodanInternetDb (ip : Option String) (budgetAllowed : Bool) (http : ShodanHttp) :
    ShodanResult :=
  match ip with
  | none => ⟨false, 0, 0, []⟩
  | some _ =>
    if budgetAllowed = false then ⟨false, 0, 0, []⟩
    else
      match http with
      | ShodanHttp.failure => ⟨false, 0, 0, []⟩
      | ShodanHttp.notFound => ⟨true, 0, 0, []⟩
      | ShodanHttp.body ports vulns => ⟨true, ports, vulns.length, vulns⟩

/-- `checkAbuseIpdb` from the source: a missing or empty API key or missing IP
short-circuits to unavailable before the budget is consulted; a refused budget
or failed call yields unavailable; the payload carries the parsed
`abuseConfidenceScore` when it is a finite number. -/
def checkAbuseIpdb (apiKey : Option String) (ip : Option String) (budgetAllowed : Bool)
    (http : Option (Option Int)) : AbuseIpdbResult :=
  if (match apiKey with | none => true | some k => k = ("")) || ip = none then ⟨false, none⟩
  else if budgetAllowed = false then ⟨false, none⟩
  else
    match http with
    | none => ⟨false, none⟩
    | some score => ⟨true, score⟩

/-- The combined threat-intel result (`ThreatIntelResult` in the source). -/
structure ThreatIntelResult where
  urlhaus : UrlhausResult
  threatfox : ThreatFoxResult
  shodan : ShodanResult
  abuseipdb : AbuseIpdbResult
  kevHits : Option Nat
deriving DecidableEq, Repr

/-- Character-wise upper-casing as used for CVE normalisation. -/
def upperStr (s : String) : String := String.mk (s.toList.map Char.toUpper)

/-- The `kevHits` computation inside `checkThreatIntel`: the KEV catalog is
consulted only when the shodan result reported at least one CVE, and `null`
is kept when the catalog itself is unavailable. -/
def computeKevHits (shodan : ShodanResult) (kevCves : Option (List String)) : Option Nat :=
  if 0 < shodan.vulnCount then
    match kevCves with
    | some cves =>
      some (shodan.vulns.foldl
        (fun sum cve => sum + (if cves.contains (upperStr cve) then 1 else 0)) 0)
    | none => none
  else none

/-! ### Signal mappers for the upstream checks -/

/-- `mapLiveThreatSignal` from the source. -/
def mapLiveThreatSignal (raw : ThreatIntelResult) : PublicSignal :=
  let hasHighThreat : Bool :=
    decide (0 < raw.urlhaus.hits) || decide (3 ≤ raw.threatfox.hits)
      || (match raw.abuseipdb.abuseScore with
          | some sc => decide ((70 : Int) ≤ sc)
          | none => false)
  let hasMediumThreat : Bool :=
    decide (0 < raw.threatfox.hits)
      || (match raw.abuseipdb.abuseScore with
          | some sc => decide ((35 : Int) ≤ sc)
          | none => false)
  if hasHighThreat then
    makeSignal PublicBand.red ("Aktiva hotindikatorer syns i externa underrättelseflöden.") Confidence.high
  else if hasMediumThreat then
    makeSignal PublicBand.amber ("Förhöjd hotsignal upptäckt. Kontext kräver djupare korrelation.") Confidence.medium
  else if raw.urlhaus.available || raw.threatfox.available || raw.abuseipdb.available then
    makeSignal PublicBand.green ("Inga tydliga direktsignaler i de öppna hotflöden som hann svara.") Confidence.medium
  else
    makeSignal PublicBand.gray ("Hotflöden svarade inte tillräckligt snabbt för säker bedömning.") Confidence.low

/-- `mapExposedServicesSignal` from the source. -/
def mapExposedServicesSignal (raw : ThreatIntelResult) : PublicSignal :=
  if raw.shodan.available = false then
    makeSignal PublicBand.gray ("Exponeringskartan kunde inte laddas inom tidsfönstret.") Confidence.low
  else if 8 ≤ raw.shodan.portCount then
    makeSignal PublicBand.red ("Tjänsteexponeringen ser bred ut i publik infrastrukturyta.") Confidence.medium
  else if 3 ≤ raw.shodan.portCount then
    makeSignal PublicBand.amber ("Flera exponerade tjänster kräver validerad ägar- och riskkartläggning.") Confidence.medium
  else
    makeSignal PublicBand.green ("Ingen bred tjänsteexponering i snabb OSINT-kontroll.") Confidence.medium

/-- `mapExploitedRiskSignal` from the source. -/
def mapExploitedRiskSignal (raw : ThreatIntelResult) : PublicSignal :=
  if raw.shodan.available = false then
    makeSignal PublicBand.gray ("Exploateringsrisken kunde inte bedömas med hög säkerhet.") Confidence.low
  else if (match raw.kevHits with | some k => decide (0 < k) | none => false) then
    makeSignal PublicBand.red ("Signal matchar sårbarheter som prioriteras i verkliga intrång.") Confidence.high
  else if 0 < raw.shodan.vulnCount then
    makeSignal PublicBand.amber ("Sårbarhetssignal hittad i publik data. Prioritering kräver djupanalyspass.") Confidence.medium
  else
    makeSignal PublicBand.green ("Ingen direkt exploateringssignal i tillgänglig publik metadata.") Confidence.medium

/-- Claim C2: when every upstream source a check depends on is at budget
capacity (the budget limiter refuses admission), the mapped public signal of
each upstream-consulting check (live threat correlation, exposed services,
exploited-vulnerability risk) has band gray and confidence low, and is never
green. -/
theorem budget_exhausted_signals_gray_low
    (e1 e2 e3 e4 : Option RateEntry) (now : Nat)
    (h1 h2 : Option AbuseChPayload) (h3 : ShodanHttp) (h4 : Option (Option Int))
    (ip apiKey : Option String) (kevCves : Option (List String))
    (hb1 : (consumeUpstreamBudget e1 (UPSTREAM_RATE_MAX_REQUESTS ("urlhaus")) now).1 = false)
    (hb2 : (consumeUpstreamBudget e2 (UPSTREAM_RATE_MAX_REQUESTS ("threatfox")) now).1 = false)
    (hb3 : (consumeUpstreamBudget e3 (UPSTREAM_RATE_MAX_REQUESTS ("shodan")) now).1 = false)
    (hb4 : (consumeUpstreamBudget e4 (UPSTREAM_RATE_MAX_REQUESTS ("abuseipdb")) now).1 = false) :
    (mapLiveThreatSignal
        ⟨checkUrlhaus (consumeUpstreamBudget e1 (UPSTREAM_RATE_MAX_REQUESTS ("urlhaus")) now).1 h1,
          checkThreatFox (consumeUpstreamBudget e2 (UPSTREAM_RATE_MAX_REQUESTS ("threatfox")) now).1 h2,
          checkShodanInternetDb ip (consumeUpstreamBudget e3 (UPSTREAM_RATE_MAX_REQUESTS ("shodan")) now).1 h3,
          checkAbuseIpdb apiKey ip (consumeUpstreamBudget e4 (UPSTREAM_RATE_MAX_REQUESTS ("abuseipdb")) now).1 h4,
          computeKevHits (checkShodanInternetDb ip (consumeUpstreamBudget e3 (UPSTREAM_RATE_MAX_REQUESTS ("shodan")) now).1 h3) kevCves⟩).verdict
        = PublicBand.gray
    ∧ (mapLiveThreatSignal
        ⟨checkUrlhaus (consumeUpstreamBudget e1 (UPSTREAM_RATE_MAX_REQUESTS ("urlhaus")) now).1 h1,
          checkThreatFox (consumeUpstreamBudget e2 (UPSTREAM_RATE_MAX_REQUESTS ("threatfox")) now).1 h2,
          checkShodanInternetDb ip (consumeUpstreamBudget e3 (UPSTREAM_RATE_MAX_REQUESTS ("shodan")) now).1 h3,
          checkAbuseIpdb apiKey ip (consumeUpstreamBudget e4 (UPSTREAM_RATE_MAX_REQUESTS ("abuseipdb")) now).1 h4,
          computeKevHits (checkShodanInternetDb ip (consumeUpstreamBudget e3 (UPSTREAM_RATE_MAX_REQUESTS ("shodan")) now).1 h3) kevCves⟩).confidence
        = Confidence.low
    ∧ (mapExposedServicesSignal
        ⟨checkUrlhaus (consumeUpstreamBudget e1 (UPSTREAM_RATE_MAX_REQUESTS ("urlhaus")) now).1 h1,
          checkThreatFox (consumeUpstreamBudget e2 (UPSTREAM_RATE_MAX_REQUESTS ("threatfox")) now).1 h2,
          checkShodanInternetDb ip (consumeUpstreamBudget e3 (UPSTREAM_RATE_MAX_REQUESTS ("shodan")) now).1 h3,
          checkAbuseIpdb apiKey ip (consumeUpstreamBudget e4 (UPSTREAM_RATE_MAX_REQUESTS ("abuseipdb")) now).1 h4,
          computeKevHits (checkShodanInternetDb ip (consumeUpstreamBudget e3 (UPSTREAM_RATE_MAX_REQUESTS ("shodan")) now).1 h3) kevCves⟩).verdict
        = PublicBand.gray
    ∧ (mapExposedServicesSignal
        ⟨checkUrlhaus (consumeUpstreamBudget e1 (UPSTREAM_RATE_MAX_REQUESTS ("urlhaus")) now).1 h1,
          checkThreatFox (consumeUpstreamBudget e2 (UPSTREAM_RATE_MAX_REQUESTS ("threatfox")) now).1 h2,
          checkShodanInternetDb ip (consumeUpstreamBudget e3 (UPSTREAM_RATE_MAX_REQUESTS ("shodan")) now).1 h3,
          checkAbuseIpdb apiKey ip (consumeUpstreamBudget e4 (UPSTREAM_RATE_MAX_REQUESTS ("abuseipdb")) now).1 h4,
          computeKevHits (checkShodanInternetDb ip (consumeUpstreamBudget e3 (UPSTREAM_RATE_MAX_REQUESTS ("shodan")) now).1 h3) kevCves⟩).confidence
        = Confidence.low
    ∧ (mapExploitedRiskSignal
        ⟨checkUrlhaus (consumeUpstreamBudget e1 (UPSTREAM_RATE_MAX_REQUESTS ("urlhaus")) now).1 h1,
          checkThreatFox (consumeUpstreamBudget e2 (UPSTREAM_RATE_MAX_REQUESTS ("threatfox")) now).1 h2,
          checkShodanInternetDb ip (consumeUpstreamBudget e3 (UPSTREAM_RATE_MAX_REQUESTS ("shodan")) now).1 h3,
          checkAbuseIpdb apiKey ip (consumeUpstreamBudget e4 (UPSTREAM_RATE_MAX_REQUESTS ("abuseipdb")) now).1 h4,
          computeKevHits (checkShodanInternetDb ip (consumeUpstreamBudget e3 (UPSTREAM_RATE_MAX_REQUESTS ("shodan")) now).1 h3) kevCves⟩).verdict
        = PublicBand.gray
    ∧ (mapExploitedRiskSignal
        ⟨checkUrlhaus (consumeUpstreamBudget e1 (UPSTREAM_RATE_MAX_REQUESTS ("urlhaus")) now).1 h1,
          checkThreatFox (consumeUpstreamBudget e2 (UPSTREAM_RATE_MAX_REQUESTS ("threatfox")) now).1 h2,
          checkShodanInternetDb ip (consumeUpstreamBudget e3 (UPSTREAM_RATE_MAX_REQUESTS ("shodan")) now).1 h3,
          checkAbuseIpdb apiKey ip (consumeUpstreamBudget e4 (UPSTREAM_RATE_MAX_REQUESTS ("abuseipdb")) now).1 h4,
          computeKevHits (checkShodanInternetDb ip (consumeUpstreamBudget e3 (UPSTREAM_RATE_MAX_REQUESTS ("shodan")) now).1 h3) kevCves⟩).confidence
        = Confidence.low
    ∧ ¬ (mapLiveThreatSignal
        ⟨checkUrlhaus (consumeUpstreamBudget e1 (UPSTREAM_RATE_MAX_REQUESTS ("urlhaus")) now).1 h1,
          checkThreatFox (consumeUpstreamBudget e2 (UPSTREAM_RATE_MAX_REQUESTS ("threatfox")) now).1 h2,
          checkShodanInternetDb ip (consumeUpstreamBudget e3 (UPSTREAM_RATE_MAX_REQUESTS ("shodan")) now).1 h3,
          checkAbuseIpdb apiKey ip (consumeUpstreamBudget e4 (UPSTREAM_RATE_MAX_REQUESTS ("abuseipdb")) now).1 h4,
          computeKevHits (checkShodanInternetDb ip (consumeUpstreamBudget e3 (UPSTREAM_RATE_MAX_REQUESTS ("shodan")) now).1 h3) kevCves⟩).verdict
        = PublicBand.green := by
  rw [hb1, hb2, hb3, hb4]
  have hu : checkUrlhaus false h1 = ⟨false, 0⟩ := by simp [checkUrlhaus]
  have ht : checkThreatFox false h2 = ⟨false, 0⟩ := by simp [checkThreatFox]
  have hs : checkShodanInternetDb ip false h3 = ⟨false, 0, 0, []⟩ := by
    cases ip <;> simp [checkShodanInternetDb]
  have ha : checkAbuseIpdb apiKey ip false h4 = ⟨false, none⟩ := by
    unfold checkAbuseIpdb
    split
    · rfl
    · simp
  rw [hu, ht, hs, ha]
  refine ⟨?_, ?_, ?_, ?_, ?_, ?_, ?_⟩ <;>
    simp [mapLiveThreatSignal, mapExposedServicesSignal, mapExploitedRiskSignal,
      computeKevHits, makeSignal, severityFromBand]

/-- Witness for `budget_exhausted_signals_gray_low`: all four budget entries at
capacity inside a live window. -/
theorem budget_exhausted_signals_gray_low_witness :
    (mapLiveThreatSignal
        ⟨checkUrlhaus (consumeUpstreamBudget (some ⟨20, 1000⟩) (UPSTREAM_RATE_MAX_REQUESTS ("urlhaus")) 500).1 none,
          checkThreatFox (consumeUpstreamBudget (some ⟨20, 1000⟩) (UPSTREAM_RATE_MAX_REQUESTS ("threatfox")) 500).1 none,
          checkShodanInternetDb (some ("192.0.2.9")) (consumeUpstreamBudget (some ⟨30, 1000⟩) (UPSTREAM_RATE_MAX_REQUESTS ("shodan")) 500).1 ShodanHttp.failure,
          checkAbuseIpdb (some ("key")) (some ("192.0.2.9")) (consumeUpstreamBudget (some ⟨20, 1000⟩) (UPSTREAM_RATE_MAX_REQUESTS ("abuseipdb")) 500).1 none,
          computeKevHits (checkShodanInternetDb (some ("192.0.2.9")) (consumeUpstreamBudget (some ⟨30, 1000⟩) (UPSTREAM_RATE_MAX_REQUESTS ("shodan")) 500).1 ShodanHttp.failure) none⟩).verdict
        = PublicBand.gray := by
  exact (budget_exhausted_signals_gray_low (some ⟨20, 1000⟩) (some ⟨20, 1000⟩)
    (some ⟨30, 1000⟩) (some ⟨20, 1000⟩) 500 none none ShodanHttp.failure none
    (some ("192.0.2.9")) (some ("key")) none
    (by decide) (by decide) (by decide) (by decide)).1

/-! ### Combined threat-intel aggregation and its cache -/

/-- `THREAT_INTEL_CACHE_TTL_MS` from the source (5 minutes). -/
def THREAT_INTEL_CACHE_TTL_MS : Nat := 5 * 60 * 1000

/-- An entry of the combined-upstream result cache. -/
structure ThreatIntelCacheEntry where
  expiresAt : Nat
  data : ThreatIntelResult
deriving DecidableEq, Repr

/-- The cache key `domain|ip` with `no-ip` for a missing IP. -/
def threatIntelKey (domain : String) (ip : Option String) : String :=
  domain ++ ("|") ++ (ip.getD ("no-ip"))

/-- The cache-miss path of `checkThreatIntel`: opportunistic eviction when the
cache is large, assembly of the round result (including the conditional KEV
correlation), and the unconditional cache write. -/
def runThreatIntelRound (cache : List (String × ThreatIntelCacheEntry)) (now : Nat)
    (cacheKey : String) (u : UrlhausResult) (t : ThreatFoxResult) (s : ShodanResult)
    (a : AbuseIpdbResult) (kevCves : Option (List String)) :
    ThreatIntelResult × List (String × ThreatIntelCacheEntry) :=
  let cache1 :=
    if 1000 < cache.length then cache.filter (fun kv => ! decide (kv.2.expiresAt < now))
    else cache
  let result : ThreatIntelResult := ⟨u, t, s, a, computeKevHits s kevCves⟩
  (result, mapSet cache1 cacheKey ⟨now + THREAT_INTEL_CACHE_TTL_MS, result⟩)

/-- `checkThreatIntel` from the source: a cache hit within TTL short-circuits;
otherwise the upstream round runs (its four source results and the KEV catalog
answer are passed in explicitly) and the result is written to the cache. -/
def checkThreatIntel (cache : List (String × ThreatIntelCacheEntry)) (now : Nat)
    (domain : String) (ip : Option String) (u : UrlhausResult) (t : ThreatFoxResult)
    (s : ShodanResult) (a : AbuseIpdbResult) (kevCves : Option (List String)) :
    ThreatIntelResult × List (String × ThreatIntelCacheEntry) :=
  let cacheKey := threatIntelKey domain ip
  match alookup cache cacheKey with
  | some e =>
    if now < e.expiresAt then (e.data, cache)
    else runThreatIntelRound cache now cacheKey u t s a kevCves
  | none => runThreatIntelRound cache now cacheKey u t s a kevCves

/-- Claim C3 counterexample: starting from an empty cache, a round in which
every upstream source returned unavailable is nevertheless written to the
cache under `example.com|no-ip`, and a later request within the TTL (here at
60 000 ms, TTL 300 000 ms) observes the cached all-unavailable result even
though its own upstream round would have been fully available. -/
theorem threatIntel_failed_round_cached :
    (alookup
        (checkThreatIntel [] 0 ("example.com") none
          ⟨false, 0⟩ ⟨false, 0⟩ ⟨false, 0, 0, []⟩ ⟨false, none⟩ none).2
        ("example.com|no-ip")
      = some ⟨300000, ⟨⟨false, 0⟩, ⟨false, 0⟩, ⟨false, 0, 0, []⟩, ⟨false, none⟩, none⟩⟩)
    ∧ (checkThreatIntel
        (checkThreatIntel [] 0 ("example.com") none
          ⟨false, 0⟩ ⟨false, 0⟩ ⟨false, 0, 0, []⟩ ⟨false, none⟩ none).2
        60000 ("example.com") none
        ⟨true, 0⟩ ⟨true, 0⟩ ⟨true, 2, 0, []⟩ ⟨true, some 10⟩ none).1
      = ⟨⟨false, 0⟩, ⟨false, 0⟩, ⟨false, 0, 0, []⟩, ⟨false, none⟩, none⟩ := by
  constructor
  · rfl
  · rfl

/-- Claim C3 (amended): on a cache miss the round result is written to the
cache unconditionally — also when the round failed — with expiry
`now + THREAT_INTEL_CACHE_TTL_MS`, and any later request for the same
(domain, ip) key before that expiry returns the cached data. -/
theorem threatIntel_caches_every_round
    (cache : List (String × ThreatIntelCacheEntry)) (now now2 : Nat)
    (domain : String) (ip : Option String)
    (u u2 : UrlhausResult) (t t2 : ThreatFoxResult) (s s2 : ShodanResult)
    (a a2 : AbuseIpdbResult) (kev kev2 : Option (List String))
    (hmiss : alookup cache (threatIntelKey domain ip) = none)
    (hfresh : now2 < now + THREAT_INTEL_CACHE_TTL_MS) :
    alookup (checkThreatIntel cache now domain ip u t s a kev).2 (threatIntelKey domain ip)
      = some ⟨now + THREAT_INTEL_CACHE_TTL_MS, (checkThreatIntel cache now domain ip u t s a kev).1⟩
    ∧ (checkThreatIntel cache now domain ip u t s a kev).1 = ⟨u, t, s, a, computeKevHits s kev⟩
    ∧ (checkThreatIntel (checkThreatIntel cache now domain ip u t s a kev).2 now2
        domain ip u2 t2 s2 a2 kev2).1
      = (checkThreatIntel cache now domain ip u t s a kev).1 := by
  have hrun : checkThreatIntel cache now domain ip u t s a kev
      = runThreatIntelRound cache now (threatIntelKey domain ip) u t s a kev := by
    simp [checkThreatIntel, hmiss]
  have hset : (checkThreatIntel cache now domain ip u t s a kev).2
      = mapSet
          (if 1000 < cache.length then cache.filter (fun kv => ! decide (kv.2.expiresAt < now))
            else cache)
          (threatIntelKey domain ip)
          ⟨now + THREAT_INTEL_CACHE_TTL_MS, ⟨u, t, s, a, computeKevHits s kev⟩⟩ := by
    rw [hrun]; rfl
  have hfst : (checkThreatIntel cache now domain ip u t s a kev).1
      = ⟨u, t, s, a, computeKevHits s kev⟩ := by
    rw [hrun]; rfl
  have hlook : alookup (checkThreatIntel cache now domain ip u t s a kev).2
      (threatIntelKey domain ip)
      = some ⟨now + THREAT_INTEL_CACHE_TTL_MS, ⟨u, t, s, a, computeKevHits s kev⟩⟩ := by
    rw [hset]; exact alookup_mapSet _ _ _
  have hmain : ∀ (c2 : List (String × ThreatIntelCacheEntry)) (r : ThreatIntelResult),
      alookup c2 (threatIntelKey domain ip) = some ⟨now + THREAT_INTEL_CACHE_TTL_MS, r⟩ →
      (checkThreatIntel c2 now2 domain ip u2 t2 s2 a2 kev2).1 = r := by
    intro c2 r hl
    simp [checkThreatIntel, hl, hfresh]
  refine ⟨by rw [hlook, hfst], hfst, ?_⟩
  exact hmain _ _ (by rw [hfst]; exact hlook)

/-- Witness for `threatIntel_caches_every_round`: a concrete all-unavailable
round on an empty cache, re-read 1 000 ms later. -/
theorem threatIntel_caches_every_round_witness :
    alookup
        (checkThreatIntel [] 0 ("example.net") (some ("198.51.100.3"))
          ⟨false, 0⟩ ⟨false, 0⟩ ⟨false, 0, 0, []⟩ ⟨false, none⟩ none).2
        (threatIntelKey ("example.net") (some ("198.51.100.3")))
      = some ⟨300000,
          (checkThreatIntel [] 0 ("example.net") (some ("198.51.100.3"))
            ⟨false, 0⟩ ⟨false, 0⟩ ⟨false, 0, 0, []⟩ ⟨false, none⟩ none).1⟩ := by
  exact (threatIntel_caches_every_round [] 0 1000 ("example.net") (some ("198.51.100.3"))
    ⟨false, 0⟩ ⟨true, 1⟩ ⟨false, 0⟩ ⟨true, 1⟩ ⟨false, 0, 0, []⟩ ⟨true, 1, 0, []⟩
    ⟨false, none⟩ ⟨true, some 5⟩ none none (by rfl) (by decide)).1

/-! ### KEV catalog fetcher -/

/-- `KEV_CACHE_TTL_MS` from the source (6 hours). -/
def KEV_CACHE_TTL_MS : Nat := 6 * 60 * 60 * 1000

/-- The module-level `kevCache` value: catalog expiry and CVE set. The JS
`Set<string>` is modelled as a duplicate-free list in insertion order. -/
structure KevCacheEntry where
  expiresAt : Nat
  cves : List String
deriving DecidableEq, Repr

/-- The CVE set built from the fetched catalog: keep non-blank `cveID` strings,
trimmed and upper-cased, first occurrence wins (JS `Set` insertion). -/
def kevSetOf (raw : List String) : List String :=
  ((raw.filter (fun s => s.trim ≠ (""))).map (fun s => upperStr s.trim)).eraseDups

/-- Outcome of one `getKevCves` call: the returned CVE set (or `null`), the new
module-level cache, whether a network fetch was attempted, and the new budget
entry for the `kev` source. -/
structure KevCallOutcome where
  result : Option (List String)
  newCache : Option KevCacheEntry
  didFetch : Bool
  newBudget : Option RateEntry
deriving DecidableEq, Repr

/-- The miss path of `getKevCves` (cache absent or expired): consult the
budget; on refusal serve whatever is cached (possibly stale) or `null`; on
admission attempt the fetch, caching only a successful parse. -/
def getKevCvesMiss (kevCache : Option KevCacheEntry) (budgetEntry : Option RateEntry)
    (now : Nat) (fetched : Option (List String)) : KevCallOutcome :=
  let decision := consumeUpstreamBudget budgetEntry (UPSTREAM_RATE_MAX_REQUESTS ("kev")) now
  if decision.1 = false then
    ⟨kevCache.map (fun c => c.cves), kevCache, false, some decision.2⟩
  else
    match fetched with
    | none => ⟨none, kevCache, true, some decision.2⟩
    | some raw =>
      let cves := kevSetOf raw
      ⟨some cves, some ⟨now + KEV_CACHE_TTL_MS, cves⟩, true, some decision.2⟩

/-- `getKevCves` from the source: a fresh cache entry short-circuits before the
budget is consulted; otherwise the miss path runs. -/
def getKevCves (kevCache : Option KevCacheEntry) (budgetEntry : Option RateEntry)
    (now : Nat) (fetched : Option (List String)) : KevCallOutcome :=
  match kevCache with
  | some c =>
    if now < c.expiresAt then ⟨some c.cves, kevCache, false, budgetEntry⟩
    else getKevCvesMiss kevCache budgetEntry now fetched
  | none => getKevCvesMiss kevCache budgetEntry now fetched

/-- Claim C10: when the KEV budget refuses admission, `getKevCves` serves the
previously cached CVE set even when that cache entry has already expired, and
returns `null` only when no catalog was ever cached; a network fetch is
attempted only when the budget admits the call. -/
theorem kev_budget_exhausted_serves_stale
    (kevCache : Option KevCacheEntry) (budgetEntry : Option RateEntry) (now : Nat)
    (fetched : Option (List String)) :
    ((consumeUpstreamBudget budgetEntry (UPSTREAM_RATE_MAX_REQUESTS ("kev")) now).1 = false →
      (∀ c : KevCacheEntry, kevCache = some c → c.expiresAt ≤ now →
        (getKevCves kevCache budgetEntry now fetched).result = some c.cves
          ∧ (getKevCves kevCache budgetEntry now fetched).didFetch = false
          ∧ (getKevCves kevCache budgetEntry now fetched).newCache = kevCache)
      ∧ (kevCache = none →
        (getKevCves kevCache budgetEntry now fetched).result = none
          ∧ (getKevCves kevCache budgetEntry now fetched).didFetch = false))
    ∧ ((getKevCves kevCache budgetEntry now fetched).didFetch = true →
      (consumeUpstreamBudget budgetEntry (UPSTREAM_RATE_MAX_REQUESTS ("kev")) now).1 = true) := by
  constructor
  · intro hb
    constructor
    · intro c hc hexp
      subst hc
      have hnotfresh : ¬ now < c.expiresAt := by omega
      simp [getKevCves, getKevCvesMiss, hnotfresh, hb]
    · intro hc
      subst hc
      simp [getKevCves, getKevCvesMiss, hb]
  · intro hf
    by_cases hb : (consumeUpstreamBudget budgetEntry (UPSTREAM_RATE_MAX_REQUESTS ("kev")) now).1 = false
    · exfalso
      cases hcache : kevCache with
      | none =>
        rw [hcache] at hf
        simp [getKevCves, getKevCvesMiss, hb] at hf
      | some c =>
        rw [hcache] at hf
        by_cases hfr : now < c.expiresAt
        · simp [getKevCves, hfr] at hf
        · simp [getKevCves, getKevCvesMiss, hfr, hb] at hf
    · simpa using hb

/-- Witness for `kev_budget_exhausted_serves_stale`: an expired catalog entry
is served while the kev budget (limit 5) is at capacity. -/
theorem kev_budget_exhausted_serves_stale_witness :
    (getKevCves (some ⟨100, [("CVE-2024-3400")]⟩) (some ⟨5, 1000⟩) 200 none).result
        = some [("CVE-2024-3400")]
    ∧ (getKevCves (some ⟨100, [("CVE-2024-3400")]⟩) (some ⟨5, 1000⟩) 200 none).didFetch = false := by
  have h := ((kev_budget_exhausted_serves_stale (some ⟨100, [("CVE-2024-3400")]⟩)
    (some ⟨5, 1000⟩) 200 none).1 (by decide)).1 ⟨100, [("CVE-2024-3400")]⟩ rfl (by decide)
  exact ⟨h.1, h.2.1⟩

/-! ### Character-level string primitives

The normalizer and the record parsers work on `List Char` so that every
operation is structurally recursive and kernel-evaluable. The JS regular
expressions of the source are implemented as explicit single-pass scans with
the same left-to-right, non-overlapping, no-rescan semantics as
`String.prototype.replace` with the `g` flag. -/

/-- Splits a character list on a separator character; mirrors JS
`String.prototype.split` with a single-character separator. -/
def splitOnChar (sep : Char) : List Char → List (List Char)
  | [] => [[]]
  | c :: cs =>
    let r := splitOnChar sep cs
    if c = sep then [] :: r
    else
      match r with
      | [] => [[c]]
      | h :: t => (c :: h) :: t

/-- Joins label lists with dots (inverse of `splitOnChar`). -/
def joinDots : List (List Char) → List Char
  | [] => []
  | [l] => l
  | l :: ls => l ++ ('.') :: joinDots ls

/-- Does `cs` start with `pat`? -/
def startsWithList : List Char → List Char → Bool
  | [], _ => true
  | _ :: _, [] => false
  | p :: ps, c :: cs => p = c && startsWithList ps cs

/-- Does `cs` contain `pat` as a contiguous substring? -/
def containsSub (pat : List Char) : List Char → Bool
  | [] => startsWithList pat []
  | c :: cs => startsWithList pat (c :: cs) || containsSub pat cs

/-- Character-wise lower-casing (ASCII, as JS `toLowerCase` on the inputs the
engine handles). -/
def lowerList (cs : List Char) : List Char := cs.map Char.toLower

/-- Both-ends whitespace trim, as JS `String.prototype.trim`. -/
def trimList (cs : List Char) : List Char :=
  ((cs.dropWhile Char.isWhitespace).reverse.dropWhile Char.isWhitespace).reverse

/-- Consumes characters up to and including the first `>`; `none` when no `>`
remains. Used for the `<[^>]*>` tag-stripping regex. -/
def dropThroughGt : List Char → Option (List Char)
  | [] => none
  | c :: rest => if c = ('>') then some rest else dropThroughGt rest

/-- Fuelled single pass of `.replace(/<[^>]*>/g, "")`: a `<` with a later `>`
swallows everything through that `>`; a `<` with no closing `>` is kept. -/
def stripTagsFuel : Nat → List Char → List Char
  | 0, cs => cs
  | _ + 1, [] => []
  | fuel + 1, c :: rest =>
    if c = ('<') then
      match dropThroughGt rest with
      | some rest2 => stripTagsFuel fuel rest2
      | none => c :: stripTagsFuel fuel rest
    else c :: stripTagsFuel fuel rest

/-- `.replace(/<[^>]*>/g, "")` from the source. -/
def stripTags (cs : List Char) : List Char := stripTagsFuel cs.length cs

/-- Case-insensitive match of `pat` (given lower-cased) against a prefix of the
input; returns the remainder after the match. -/
def matchesCI : List Char → List Char → Option (List Char)
  | [], cs => some cs
  | _ :: _, [] => none
  | p :: ps, c :: cs => if c.toLower = p then matchesCI ps cs else none

/-- Fuelled single pass of `.replace(/javascript:/gi, "")` style literal
removal: the pattern is split into its head `p` and tail `ps`, both
lower-cased. Replaced regions are not rescanned. -/
def removeCIFuel (p : Char) (ps : List Char) : Nat → List Char → List Char
  | 0, cs => cs
  | _ + 1, [] => []
  | fuel + 1, c :: cs =>
    if c.toLower = p then
      match matchesCI ps cs with
      | some rest => removeCIFuel p ps fuel rest
      | none => c :: removeCIFuel p ps fuel cs
    else c :: removeCIFuel p ps fuel cs

/-- Case-insensitive global removal of a literal pattern. -/
def removeCI (p : Char) (ps : List Char) (cs : List Char) : List Char :=
  removeCIFuel p ps cs.length cs

/-- JS `\w`: ASCII letters, digits and underscore. -/
def isWordChar (c : Char) : Bool := c.isAlphanum || c = ('_')

/-- Matches `on\w+=` (case-insensitively) at the head of the input; since `=`
is not a word character the greedy `\w+` needs no backtracking: the maximal
word run must be followed directly by `=`. Returns the remainder after the
match. -/
def matchOnAttr : List Char → Option (List Char)
  | c1 :: c2 :: rest =>
    if c1.toLower = ('o') && c2.toLower = ('n') then
      if 0 < (rest.takeWhile isWordChar).length then
        match rest.dropWhile isWordChar with
        | '=' :: rest2 => some rest2
        | _ => none
      else none
    else none
  | _ => none

/-- Fuelled single pass of `.replace(/on\w+=/gi, "")`. -/
def removeOnAttrsFuel : Nat → List Char → List Char
  | 0, cs => cs
  | _ + 1, [] => []
  | fuel + 1, c :: cs =>
    match matchOnAttr (c :: cs) with
    | some rest => removeOnAttrsFuel fuel rest
    | none => c :: removeOnAttrsFuel fuel cs

/-- `.replace(/on\w+=/gi, "")` from the source. -/
def removeOnAttrs (cs : List Char) : List Char := removeOnAttrsFuel cs.length cs

/-- The characters removed by `.replace(/[<>"'`]/g, "")`; code points 39 and
96 are the apostrophe and the backtick. -/
def xssChars : List Char := [('<'), ('>'), ('"'), Char.ofNat 39, Char.ofNat 96]

/-- Strips a leading `http://` or `https://` case-insensitively
(`.replace(/^https?:\/\//i, "")`). -/
def stripScheme (cs : List Char) : List Char :=
  if startsWithList (("https://").toList) (lowerList cs) then cs.drop 8
  else if startsWithList (("http://").toList) (lowerList cs) then cs.drop 7
  else cs

/-- Strips leading and trailing dots (`.replace(/^\.+|\.+$/g, "")`). -/
def trimDotsList (cs : List Char) : List Char :=
  ((cs.dropWhile (fun c => c = ('.'))).reverse.dropWhile (fun c => c = ('.'))).reverse

/-- The full cleaning pipeline of `normalizeAndValidateDomain`: tag stripping,
`javascript:` and inline-handler removal, XSS character filtering, trim,
lower-casing, scheme stripping, path/query/fragment/port truncation and dot
trimming, in source order. -/
def cleanDomain (input : String) : List Char :=
  let s1 := stripTags input.toList
  let s2 := removeCI ('j') (("avascript:").toList) s1
  let s3 := removeOnAttrs s2
  let s4 := s3.filter (fun c => ! xssChars.contains c)
  let s5 := lowerList (trimList s4)
  let s6 := stripScheme s5
  let s7 := (splitOnChar ('/') s6).headD []
  let s8 := (splitOnChar ('?') s7).headD []
  let s9 := (splitOnChar ('#') s8).headD []
  let s10 := (splitOnChar (':') s9).headD []
  trimDotsList s10

/-! ### Domain normalizer -/

/-- The result record of `normalizeAndValidateDomain`. -/
structure NormalizeResult where
  valid : Bool
  domain : Option String
  error : Option String
deriving DecidableEq, Repr

/-- The dotted-quad test `^\d{1,3}(\.\d{1,3}){3}$`: exactly four dot-separated
groups of one to three digits. -/
def isIpv4 (cs : List Char) : Bool :=
  let parts := splitOnChar ('.') cs
  parts.length = 4
    && parts.all (fun p => 1 ≤ p.length && p.length ≤ 3 && p.all Char.isDigit)

/-- The per-label character test
`^[a-z0-9]([a-z0-9-]*[a-z0-9])?$/i` or `^[a-z0-9]$/i`: alphanumerics and
hyphens only, with alphanumeric first and last character. -/
def isValidLabel (l : List Char) : Bool :=
  match l with
  | [] => false
  | c :: cs =>
    c.isAlphanum && (cs.getLastD c).isAlphanum
      && (c :: cs).all (fun x => x.isAlphanum || x = ('-'))

/-- The label loop of `normalizeAndValidateDomain`: first failing label decides
the error message. -/
def checkLabels : List (List Char) → Option String
  | [] => none
  | l :: ls =>
    if l.length = 0 || 63 < l.length then some ("Ogiltig domän - felaktig etikett")
    else if ! isValidLabel l then some ("Ogiltig domän - otillåtna tecken")
    else checkLabels ls

/-- The validation applied to the cleaned character list, in source order. -/
def validateCleaned (d : List Char) : NormalizeResult :=
  if d = [] then ⟨false, none, some ("Ogiltig domän")⟩
  else if isIpv4 d then ⟨false, none, some ("IP-adresser stöds inte")⟩
  else if d = ("localhost").toList
      || (("\x2elocal").toList).isSuffixOf d
      || (("\x2elocalhost").toList).isSuffixOf d then
    ⟨false, none, some ("Lokala domäner stöds inte")⟩
  else if 253 < d.length then ⟨false, none, some ("Domänen är för lång")⟩
  else
    let labels := splitOnChar ('.') d
    if labels.length < 2 then ⟨false, none, some ("Ogiltig domän - TLD saknas")⟩
    else
      match checkLabels labels with
      | some e => ⟨false, none, some e⟩
      | none => ⟨true, some (String.mk d), none⟩

/-- `normalizeAndValidateDomain` from the source: the guard for a missing
input, then cleaning, then validation. -/
def normalizeAndValidateDomain (input : String) : NormalizeResult :=
  if input = ("") then ⟨false, none, some ("Domän krävs")⟩
  else validateCleaned (cleanDomain input)

theorem validateCleaned_short (d : List Char) (h : (splitOnChar ('.') d).length < 2) :
    (validateCleaned d).valid = false ∧ (validateCleaned d).domain = none := by
  unfold validateCleaned
  split_ifs with h1 h2 h3 h4
  · exact ⟨rfl, rfl⟩
  · exact ⟨rfl, rfl⟩
  · exact ⟨rfl, rfl⟩
  · exact ⟨rfl, rfl⟩
  · rw [if_pos h]
    exact ⟨rfl, rfl⟩

/-- Claim C9: any raw input whose cleaned form has fewer than two labels is
rejected by the normalizer (an invalid-domain error, never a valid canonical
domain). -/
theorem normalizer_rejects_short_label_count (input : String)
    (h : (splitOnChar ('.') (cleanDomain input)).length < 2) :
    (normalizeAndValidateDomain input).valid = false
    ∧ (normalizeAndValidateDomain input).domain = none := by
  unfold normalizeAndValidateDomain
  split_ifs with h1
  · exact ⟨rfl, rfl⟩
  · exact validateCleaned_short _ h

/-- Witness for `normalizer_rejects_short_label_count`: the raw input
`https://example/about` cleans to the single label `example`. -/
theorem normalizer_rejects_short_label_count_witness :
    (splitOnChar ('.') (cleanDomain ("https://example/about"))).length < 2
    ∧ (normalizeAndValidateDomain ("https://example/about")).valid = false := by
  refine ⟨by decide, ?_⟩
  exact (normalizer_rejects_short_label_count ("https://example/about") (by decide)).1

/-! ### Blacklist / reputation check -/

/-- `parseInt(s, 10)` on the digit strings the engine feeds it: the leading
digit run interpreted in base 10. -/
def jsParseIntD (cs : List Char) : Nat :=
  (cs.takeWhile Char.isDigit).foldl (fun acc c => acc * 10 + (c.toNat - 48)) 0

/-- `ipToLong` from the source: `(acc << 8) + parseInt(octet)` folded over the
dot-separated octets, with the 32-bit wrap-around of JS `<<` and the final
`>>> 0` expressed as a step-wise `% 2^32` (congruent to the JS computation). -/
def ipToLong (s : String) : Nat :=
  (splitOnChar ('.') s.toList).foldl
    (fun acc oct => (acc * 256 + jsParseIntD oct) % 4294967296) 0

/-- `CLOUDFLARE_IPS` from the source. -/
def CLOUDFLARE_IPS : List String :=
  [("173.245.48.0/20"), ("103.21.244.0/22"), ("103.22.200.0/22"), ("103.31.4.0/22"),
    ("141.101.64.0/18"), ("108.162.192.0/18"), ("190.93.240.0/20"), ("188.114.96.0/20"),
    ("197.234.240.0/22"), ("198.41.128.0/17"), ("162.158.0.0/15"), ("104.16.0.0/13"),
    ("104.24.0.0/14"), ("172.64.0.0/13"), ("131.27.0.0/16")]

/-- `(0xffffffff << (32 - mask)) >>> 0` for the prefix lengths appearing in
`CLOUDFLARE_IPS`. -/
def maskBits (m : Nat) : Nat := (4294967295 <<< (32 - m)) % 4294967296

/-- One iteration of the range loop in `isCloudflareIP`. -/
def inCidr (target : Nat) (cidr : String) : Bool :=
  match splitOnChar ('/') cidr.toList with
  | base :: mask :: _ =>
    let bm := maskBits (jsParseIntD mask)
    (ipToLong (String.mk base) &&& bm) = (target &&& bm)
  | _ => false

/-- `isCloudflareIP` from the source. -/
def isCloudflareIP (ip : String) : Bool :=
  CLOUDFLARE_IPS.any (fun range => inCidr (ipToLong ip) range)

/-- `IP_BLACKLISTS` from the source. -/
def IP_BLACKLISTS : List String :=
  [("zen.spamhaus.org"), ("bl.spamcop.net"), ("dnsbl.sorbs.net"),
    ("b.barracudacentral.org"), ("spam.dnsbl.sorbs.net"), ("cbl.abuseat.org"),
    ("dnsbl-1.uceprotect.net")]

/-- `DOMAIN_BLACKLISTS` from the source. -/
def DOMAIN_BLACKLISTS : List String :=
  [("dbl.spamhaus.org"), ("multi.surbl.org")]

/-- `CDN_AGGRESSIVE_LISTS` from the quickcheck route variant: the four zones
whose hits are ignored for CDN IPs there. -/
def CDN_AGGRESSIVE_LISTS : List String :=
  [("dnsbl-1.uceprotect.net"), ("dnsbl.sorbs.net"), ("spam.dnsbl.sorbs.net"),
    ("b.barracudacentral.org")]

/-- The octet-reversal of an IP for DNSBL queries
(`ip.split(".").reverse().join(".")`). -/
def reversedIp (ip : String) : String :=
  String.mk (joinDots (splitOnChar ('.') ip.toList).reverse)

/-- The result record of `checkBlacklists` (main engine variant). -/
structure BlacklistResult where
  verdict : String
  severity : String
  listedCount : Nat
  note : Option String
deriving DecidableEq, Repr

/-- The counting loops of `checkBlacklists`: one resolver query per zone, a
hit is a non-empty A answer. -/
def countListed (resolve4 : String → Option (List String)) (queries : List String) : Nat :=
  queries.foldl
    (fun n q =>
      match resolve4 q with
      | some l => if 0 < l.length then n + 1 else n
      | none => n) 0

/-- `checkBlacklists` from the aggregation engine: the resolver is the explicit
environment `resolve4` (`none` models a failed or timed-out lookup). A missing
or empty A answer for the domain itself short-circuits to the clean result;
for a Cloudflare IP the whole IP-zone loop is skipped; the two domain zones
are always queried. -/
def checkBlacklists (resolve4 : String → Option (List String)) (domain : String) :
    BlacklistResult :=
  match resolve4 domain with
  | none => ⟨("clean"), ("success"), 0, none⟩
  | some [] => ⟨("clean"), ("success"), 0, none⟩
  | some (ip :: _) =>
    let isCDN := isCloudflareIP ip
    let ipListedCount :=
      if isCDN then 0
      else countListed resolve4 (IP_BLACKLISTS.map (fun bl => reversedIp ip ++ (".") ++ bl))
    let domainListedCount :=
      countListed resolve4 (DOMAIN_BLACKLISTS.map (fun bl => domain ++ (".") ++ bl))
    if 0 < ipListedCount + domainListedCount then
      ⟨("listed"), ("critical"), ipListedCount + domainListedCount, none⟩
    else if isCDN then
      ⟨("clean"), ("success"), 0, some ("Infrastruktur skyddad via CDN (delad IP).")⟩
    else ⟨("clean"), ("success"), 0, none⟩

/-- `mapBlacklistSignal` from the source. -/
def mapBlacklistSignal (raw : BlacklistResult) : PublicSignal :=
  if raw.verdict = ("listed") then
    makeSignal PublicBand.red ("Negativa ryktessignaler hittades i öppna underrättelseflöden.") Confidence.high
  else if raw.verdict = ("clean") then
    makeSignal PublicBand.green ("Ingen tydlig blocklistsignal i det publika ytskiktet just nu.") Confidence.medium
  else
    makeSignal PublicBand.gray ("Ryktesbedömningen kunde inte verifieras i tid.") Confidence.low

theorem countListed_aux (f g : String → Option (List String)) (queries : List String)
    (h : ∀ q ∈ queries, f q = g q) : ∀ n : Nat,
    queries.foldl
        (fun n q => match f q with | some l => if 0 < l.length then n + 1 else n | none => n) n
    = queries.foldl
        (fun n q => match g q with | some l => if 0 < l.length then n + 1 else n | none => n) n := by
  induction queries with
  | nil => intro n; rfl
  | cons q rest ih =>
    intro n
    simp only [List.foldl_cons]
    rw [h q (by simp)]
    exact ih (fun q2 hq2 => h q2 (by simp [hq2])) _

theorem countListed_congr (f g : String → Option (List String)) (queries : List String)
    (h : ∀ q ∈ queries, f q = g q) : countListed f queries = countListed g queries :=
  countListed_aux f g queries h 0

/-- Claim C1 counterexample: when the A-record resolution of the domain itself
fails (the resolver environment answers `none`), `checkBlacklists` returns the
verdict `clean` — the very outcome of a verified-clean result — and the mapped
signal is green, not an indeterminate outcome. -/
theorem blacklist_clean_on_resolution_failure :
    checkBlacklists (fun _ => none) ("example.com") = ⟨("clean"), ("success"), 0, none⟩
    ∧ (mapBlacklistSignal (checkBlacklists (fun _ => none) ("example.com"))).verdict
        = PublicBand.green
    ∧ (mapBlacklistSignal (checkBlacklists (fun _ => none) ("example.com"))).confidence
        = Confidence.medium := by
  decide

/-- Claim C1 (amended): the blacklist signal mapper does have an indeterminate
branch distinct from a negative finding (any verdict other than listed/clean
maps to gray with low confidence), but `checkBlacklists` itself never produces
such a verdict: a failed A-record resolution of the domain is mapped to the
same `clean` outcome (and green signal) as a verified-clean result. -/
theorem blacklistSignal_indeterminate_mapping :
    (∀ raw : BlacklistResult, raw.verdict ≠ ("listed") → raw.verdict ≠ ("clean") →
      (mapBlacklistSignal raw).verdict = PublicBand.gray
        ∧ (mapBlacklistSignal raw).confidence = Confidence.low)
    ∧ (∀ (resolve4 : String → Option (List String)) (domain : String),
        resolve4 domain = none →
        checkBlacklists resolve4 domain = ⟨("clean"), ("success"), 0, none⟩
          ∧ (mapBlacklistSignal (checkBlacklists resolve4 domain)).verdict
              = PublicBand.green) := by
  constructor
  · intro raw hl hc
    constructor
    · simp [mapBlacklistSignal, hl, hc, makeSignal, severityFromBand]
    · simp [mapBlacklistSignal, hl, hc, makeSignal, severityFromBand]
  · intro resolve4 domain h
    constructor
    · simp [checkBlacklists, h]
    · simp [checkBlacklists, h, mapBlacklistSignal, makeSignal, severityFromBand]

/-- Witness for `blacklistSignal_indeterminate_mapping`: a hypothetical
`unknown` verdict maps to gray/low, and a concrete failing resolver yields the
clean result. -/
theorem blacklistSignal_indeterminate_mapping_witness :
    (mapBlacklistSignal ⟨("unknown"), ("neutral"), 0, none⟩).verdict = PublicBand.gray
    ∧ checkBlacklists (fun _ => none) ("status.example")
        = ⟨("clean"), ("success"), 0, none⟩ := by
  exact ⟨(blacklistSignal_indeterminate_mapping.1 ⟨("unknown"), ("neutral"), 0, none⟩
      (by decide) (by decide)).1,
    (blacklistSignal_indeterminate_mapping.2 (fun _ => none) ("status.example") rfl).1⟩

/-- A resolver environment in which `cdn.example.com` resolves to a Cloudflare
IP that is listed on `zen.spamhaus.org`, a zone that is absent from the
quickcheck variant's CDN-sensitive list. -/
def cdnHitEnv : String → Option (List String) := fun q =>
  if q = ("cdn.example.com") then some [("104.16.0.1")]
  else if q = ("1.0.16.104.zen.spamhaus.org") then some [("127.0.0.2")]
  else none

/-- Claim C4 counterexample: for a domain on a Cloudflare IP, a positive hit
on `zen.spamhaus.org` — an IP zone that is not on the CDN-sensitive list —
still yields the clean (CDN-shielded) outcome in the aggregation engine: the
zone was not consulted at all, so the claimed red outcome does not occur. -/
theorem cdn_blacklist_ignores_nonsensitive_ip_zone_hit :
    isCloudflareIP ("104.16.0.1") = true
    ∧ IP_BLACKLISTS.contains ("zen.spamhaus.org") = true
    ∧ CDN_AGGRESSIVE_LISTS.contains ("zen.spamhaus.org") = false
    ∧ cdnHitEnv (reversedIp ("104.16.0.1") ++ (".") ++ ("zen.spamhaus.org"))
        = some [("127.0.0.2")]
    ∧ checkBlacklists cdnHitEnv ("cdn.example.com")
        = ⟨("clean"), ("success"), 0, some ("Infrastruktur skyddad via CDN (delad IP).")⟩ := by
  decide

/-- Claim C4 (amended): in the aggregation engine, a domain whose primary IP
lies in a Cloudflare range has the entire IP-blacklist loop skipped — the
result is independent of the resolver's answers on every IP zone — while both
domain-level zones are still consulted; any positive domain-zone hit yields
the listed/critical outcome and a red signal, and with no domain-zone hit the
result is clean with the CDN-shielded note. -/
theorem cdn_blacklist_skips_all_ip_zones
    (resolve4 resolve4' : String → Option (List String)) (domain ip : String)
    (rest : List String)
    (hres : resolve4 domain = some (ip :: rest))
    (hres' : resolve4' domain = some (ip :: rest))
    (hcdn : isCloudflareIP ip = true)
    (hagree : ∀ bl ∈ DOMAIN_BLACKLISTS,
      resolve4 (domain ++ (".") ++ bl) = resolve4' (domain ++ (".") ++ bl)) :
    checkBlacklists resolve4 domain = checkBlacklists resolve4' domain
    ∧ (0 < countListed resolve4 (DOMAIN_BLACKLISTS.map (fun bl => domain ++ (".") ++ bl)) →
        (checkBlacklists resolve4 domain).verdict = ("listed")
          ∧ (checkBlacklists resolve4 domain).severity = ("critical")
          ∧ (mapBlacklistSignal (checkBlacklists resolve4 domain)).verdict = PublicBand.red)
    ∧ (countListed resolve4 (DOMAIN_BLACKLISTS.map (fun bl => domain ++ (".") ++ bl)) = 0 →
        checkBlacklists resolve4 domain
          = ⟨("clean"), ("success"), 0, some ("Infrastruktur skyddad via CDN (delad IP).")⟩) := by
  have hchar : checkBlacklists resolve4 domain =
      if 0 < countListed resolve4 (DOMAIN_BLACKLISTS.map (fun bl => domain ++ (".") ++ bl)) then
        ⟨("listed"), ("critical"),
          countListed resolve4 (DOMAIN_BLACKLISTS.map (fun bl => domain ++ (".") ++ bl)), none⟩
      else ⟨("clean"), ("success"), 0, some ("Infrastruktur skyddad via CDN (delad IP).")⟩ := by
    simp [checkBlacklists, hres, hcdn]
  have hchar' : checkBlacklists resolve4' domain =
      if 0 < countListed resolve4' (DOMAIN_BLACKLISTS.map (fun bl => domain ++ (".") ++ bl)) then
        ⟨("listed"), ("critical"),
          countListed resolve4' (DOMAIN_BLACKLISTS.map (fun bl => domain ++ (".") ++ bl)), none⟩
      else ⟨("clean"), ("success"), 0, some ("Infrastruktur skyddad via CDN (delad IP).")⟩ := by
    simp [checkBlacklists, hres', hcdn]
  have hcount : countListed resolve4 (DOMAIN_BLACKLISTS.map (fun bl => domain ++ (".") ++ bl))
      = countListed resolve4' (DOMAIN_BLACKLISTS.map (fun bl => domain ++ (".") ++ bl)) := by
    refine countListed_congr _ _ _ ?_
    intro q hq
    obtain ⟨bl, hbl, rfl⟩ := List.mem_map.mp hq
    exact hagree bl hbl
  refine ⟨?_, ?_, ?_⟩
  · rw [hchar, hchar', hcount]
  · intro hpos
    rw [hchar, if_pos hpos]
    exact ⟨rfl, rfl, by simp [mapBlacklistSignal, makeSignal, severityFromBand]⟩
  · intro hz
    rw [hchar, if_neg (by omega)]

/-- A resolver environment in which `cdn.example.com` resolves to a Cloudflare
IP and is listed on the domain zone `dbl.spamhaus.org`. -/
def cdnDomainHitEnv : String → Option (List String) := fun q =>
  if q = ("cdn.example.com") then some [("104.16.0.1")]
  else if q = ("cdn.example.com.dbl.spamhaus.org") then some [("127.0.1.2")]
  else none

/-- Witness for `cdn_blacklist_skips_all_ip_zones`: a concrete CDN-hosted
domain with a domain-zone hit is marked listed/critical and red. -/
theorem cdn_blacklist_skips_all_ip_zones_witness :
    (checkBlacklists cdnDomainHitEnv ("cdn.example.com")).verdict = ("listed")
    ∧ (mapBlacklistSignal (checkBlacklists cdnDomainHitEnv ("cdn.example.com"))).verdict
        = PublicBand.red := by
  have h := cdn_blacklist_skips_all_ip_zones cdnDomainHitEnv cdnDomainHitEnv
    ("cdn.example.com") ("104.16.0.1") [] (by decide) (by decide) (by decide)
    (fun bl _ => rfl)
  have h2 := h.2.1 (by decide)
  exact ⟨h2.1, h2.2.2⟩

/-! ### DNS hardening check -/

/-- The state of the underlying DNS promise when raced against the 2 s
timeout: fulfilled in time, rejected in time, or still pending at the
deadline. `withTimeout` turns `pending` into a fulfilled `null`, and a
rejection propagates to the caller's catch block. -/
inductive PromiseOutcome (α : Type) where
  | fulfilled (v : α)
  | rejected
  | pending
deriving DecidableEq, Repr

/-- The result record of `checkDNSArmor`. -/
structure DnsArmorResult where
  verdict : String
  severity : String
  riskLevel : Nat
deriving DecidableEq, Repr

/-- The body of `checkDNSArmor` after `await withTimeout(...)` succeeded with
`caa : CAA-records-or-null`: `hasArmor` is `caa !== null && caa.length > 0`. -/
def dnsArmorFromCaa (caa : Option (List String)) : DnsArmorResult :=
  let hasArmor : Bool := match caa with | none => false | some l => decide (0 < l.length)
  ⟨if hasArmor then ("hardened") else ("missing"),
    if hasArmor then ("success") else ("warning"),
    if hasArmor then 0 else 1⟩

/-- `checkDNSArmor` from the source: a rejection is caught and yields
`unknown`; a timeout yields `null`, which the body treats like an empty
record set. -/
def checkDNSArmor (caaLookup : PromiseOutcome (List String)) : DnsArmorResult :=
  match caaLookup with
  | PromiseOutcome.rejected => ⟨("unknown"), ("neutral"), 0⟩
  | PromiseOutcome.pending => dnsArmorFromCaa none
  | PromiseOutcome.fulfilled v => dnsArmorFromCaa (some v)

/-- `mapDnsArmorSignal` from the source. -/
def mapDnsArmorSignal (raw : DnsArmorResult) : PublicSignal :=
  if raw.verdict = ("hardened") then
    makeSignal PublicBand.green ("Ytnivån visar modern DNS-armorering.") Confidence.high
  else if raw.verdict = ("missing") then
    makeSignal PublicBand.amber ("Skyddslager saknas i DNS-ytan och bör valideras djupare.") Confidence.high
  else
    makeSignal PublicBand.gray ("DNS-armoreringen kunde inte verifieras i detta pass.") Confidence.low

/-- Claim C5 counterexample: a CAA lookup that times out (the promise is still
pending at the 2 s deadline) is reported as `missing` with an amber signal —
not as the unknown/gray outcome the claim requires for a timed-out lookup. -/
theorem dnsArmor_timeout_reported_missing :
    checkDNSArmor (PromiseOutcome.pending : PromiseOutcome (List String))
        = ⟨("missing"), ("warning"), 1⟩
    ∧ (mapDnsArmorSignal
        (checkDNSArmor (PromiseOutcome.pending : PromiseOutcome (List String)))).verdict
        = PublicBand.amber := by
  decide

/-- Claim C5 (amended): a successful CAA lookup with at least one record
yields hardened, a successful lookup with zero records yields missing/amber,
and a rejected resolution yields unknown/gray — but a timed-out lookup is
treated as zero records and therefore also yields missing/amber, not
unknown/gray. -/
theorem dnsArmor_outcomes (r : String) (rs : List String) :
    checkDNSArmor (PromiseOutcome.fulfilled (r :: rs)) = ⟨("hardened"), ("success"), 0⟩
    ∧ checkDNSArmor (PromiseOutcome.fulfilled ([] : List String))
        = ⟨("missing"), ("warning"), 1⟩
    ∧ checkDNSArmor (PromiseOutcome.rejected : PromiseOutcome (List String))
        = ⟨("unknown"), ("neutral"), 0⟩
    ∧ (mapDnsArmorSignal
        (checkDNSArmor (PromiseOutcome.rejected : PromiseOutcome (List String)))).verdict
        = PublicBand.gray
    ∧ (mapDnsArmorSignal
        (checkDNSArmor (PromiseOutcome.rejected : PromiseOutcome (List String)))).confidence
        = Confidence.low
    ∧ checkDNSArmor (PromiseOutcome.pending : PromiseOutcome (List String))
        = ⟨("missing"), ("warning"), 1⟩
    ∧ (mapDnsArmorSignal
        (checkDNSArmor (PromiseOutcome.pending : PromiseOutcome (List String)))).verdict
        = PublicBand.amber := by
  refine ⟨?_, by decide, by decide, by decide, by decide, by decide, by decide⟩
  simp [checkDNSArmor, dnsArmorFromCaa]

/-! ### Email security check -/

/-- The result record of `checkEmailSecurity`. -/
structure EmailSecurityResult where
  verdict : String
  severity : String
  riskLevel : Nat
deriving DecidableEq, Repr

/-- `txt.flat()` on a TXT answer (array of record-chunk arrays). -/
def flatOnce (ls : List (List String)) : List String :=
  ls.foldr (fun a b => a ++ b) []

/-- `txt?.flat().find(r => r.toLowerCase().startsWith(pre))` with the prefix
given lower-cased. -/
def findRecord (pre : List Char) (txt : Option (List (List String))) : Option String :=
  match txt with
  | none => none
  | some ls => (flatOnce ls).find? (fun r => startsWithList pre (lowerList r.toList))

/-- The SPF enforcement extraction of the source: `-all` is strict, `~all`
soft, `?all` neutral, anything else none. -/
def spfEnforcementOf (spfRecord : Option String) : String :=
  match spfRecord with
  | none => ("none")
  | some r =>
    if containsSub (("-all").toList) (lowerList r.toList) then ("strict")
    else if containsSub (("~all").toList) (lowerList r.toList) then ("soft")
    else if containsSub (("?all").toList) (lowerList r.toList) then ("neutral")
    else ("none")

/-- The DMARC policy extraction of the source: substring checks for
`p=reject`, `p=quarantine`, `p=none`, in that order. -/
def dmarcPolicyOf (dmarcRecord : Option String) : String :=
  match dmarcRecord with
  | none => ("missing")
  | some r =>
    if containsSub (("p=reject").toList) (lowerList r.toList) then ("reject")
    else if containsSub (("p=quarantine").toList) (lowerList r.toList) then ("quarantine")
    else if containsSub (("p=none").toList) (lowerList r.toList) then ("none")
    else ("missing")

/-- `checkEmailSecurity` from the source, with the three DNS answers passed as
explicit environments: the MX answer (list of exchanges, `none` on
failure/timeout), the domain TXT answer and the `_dmarc.` TXT answer. -/
def checkEmailSecurity (mx : Option (List Nat)) (txt dmarcTxt : Option (List (List String))) :
    EmailSecurityResult :=
  let hasMX : Bool := match mx with | none => false | some l => decide (0 < l.length)
  if hasMX = false then ⟨("not_applicable"), ("info"), 0⟩
  else
    let spfRecord := findRecord (("v=spf1").toList) txt
    let hasSPF := spfRecord.isSome
    let spfEnforcement := spfEnforcementOf spfRecord
    let dmarcPolicy := dmarcPolicyOf (findRecord (("v=dmarc1").toList) dmarcTxt)
    if dmarcPolicy = ("reject") ∨ dmarcPolicy = ("quarantine") then
      ⟨("protected"), ("success"), 0⟩
    else if dmarcPolicy = ("none") then ⟨("not_protected"), ("critical"), 3⟩
    else if hasSPF = true ∧ spfEnforcement = ("strict") then ⟨("partial"), ("warning"), 1⟩
    else if hasSPF = true ∧ (spfEnforcement = ("soft") ∨ spfEnforcement = ("neutral")) then
      ⟨("partial"), ("warning"), 2⟩
    else ⟨("not_protected"), ("critical"), 3⟩

/-- `mapEmailSignal` from the source. -/
def mapEmailSignal (raw : EmailSecurityResult) : PublicSignal :=
  if raw.verdict = ("protected") then
    makeSignal PublicBand.green ("Inga akuta indikationer på e-postkapning i ytläget.") Confidence.high
  else if raw.verdict = ("partial") then
    makeSignal PublicBand.amber ("Identitetslagret visar svagheter som ofta utnyttjas i tidiga attacker.") Confidence.high
  else if raw.verdict = ("not_protected") then
    makeSignal PublicBand.red ("Domänen kan sannolikt imiteras i kommunikationsflöden.") Confidence.high
  else
    makeSignal PublicBand.gray ("Otillräcklig signal i gratisläget för e-postbedömning.") Confidence.low

/-- Claim C6: for a domain with MX records whose DMARC record carries policy
`p=none` (it contains `p=none` and neither `p=reject` nor `p=quarantine`),
the email check returns not-protected/critical and the mapped signal is red,
whatever the TXT/SPF answer is. -/
theorem dmarc_none_red (m : Nat) (ml : List Nat) (txt dmarcTxt : Option (List (List String)))
    (r : String)
    (hfind : findRecord (("v=dmarc1").toList) dmarcTxt = some r)
    (hnone : containsSub (("p=none").toList) (lowerList r.toList) = true)
    (hrej : containsSub (("p=reject").toList) (lowerList r.toList) = false)
    (hquar : containsSub (("p=quarantine").toList) (lowerList r.toList) = false) :
    checkEmailSecurity (some (m :: ml)) txt dmarcTxt = ⟨("not_protected"), ("critical"), 3⟩
    ∧ (mapEmailSignal (checkEmailSecurity (some (m :: ml)) txt dmarcTxt)).verdict
        = PublicBand.red := by
  have hpol : dmarcPolicyOf (findRecord (("v=dmarc1").toList) dmarcTxt) = ("none") := by
    rw [hfind]
    simp only [dmarcPolicyOf]
    rw [hrej, hquar, hnone]
    rfl
  have hmain : checkEmailSecurity (some (m :: ml)) txt dmarcTxt
      = ⟨("not_protected"), ("critical"), 3⟩ := by
    simp only [checkEmailSecurity, hpol]
    simp
  exact ⟨hmain, by rw [hmain]; simp [mapEmailSignal, makeSignal, severityFromBand]⟩

/-- Witness for `dmarc_none_red`: MX present, a strict SPF record, and a DMARC
record with `p=none`. -/
theorem dmarc_none_red_witness :
    checkEmailSecurity (some [10]) (some [[("v=spf1 -all")]])
        (some [[("v=DMARC1; p=none; rua=mailto:box@example.com")]])
        = ⟨("not_protected"), ("critical"), 3⟩
    ∧ (mapEmailSignal (checkEmailSecurity (some [10]) (some [[("v=spf1 -all")]])
        (some [[("v=DMARC1; p=none; rua=mailto:box@example.com")]]))).verdict
        = PublicBand.red := by
  exact dmarc_none_red 10 [] (some [[("v=spf1 -all")]])
    (some [[("v=DMARC1; p=none; rua=mailto:box@example.com")]])
    ("v=DMARC1; p=none; rua=mailto:box@example.com")
    (by decide) (by decide) (by decide) (by decide)
